import Mathlib

/-!
# Pokedex: display, navigation and cry playback

A shallow embedding of `main.go`.  The Go globals `currentPokemon`,
`currentInfoIndex` and the three widgets handed to every function are gathered
in one record that each function takes and returns.  Calls that leave the
program (HTTP, JSON and image decoding, audio decoding and output) are fields
of an environment record, so every statement is quantified over what the
outside world answers.  Go `int` values are `Int`; the arithmetic the handlers
perform on the cursor stays far from the 64-bit range.
-/

namespace Pokedex

/-! ## Data model -/

/-- One element of `Pokemon.Stats`: `BaseStat` and `Stat.Name`. -/
structure StatEntry where
  BaseStat : Int
  Name : String
deriving DecidableEq, Repr

/-- The `Pokemon` struct.  The one-field wrappers (`Sprites.FrontDefault`,
`Cries.Latest`, `Types[i].Type.Name`, `Abilities[i].Ability.Name`,
`Moves[i].Move.Name`) are flattened to the field they carry. -/
structure Pokemon where
  ID : Int
  Name : String
  Height : Int
  Weight : Int
  FrontDefault : String
  Latest : String
  Types : List String
  Abilities : List String
  Stats : List StatEntry
  Moves : List String
deriving DecidableEq, Repr

/-- The constant `MAX_POKEMON_ID`. -/
def MAX_POKEMON_ID : Int := 1025

/-- What `http.Get` hands back when it does not fail: the status code and the
body, the body being an error when reading it fails. -/
structure Response where
  StatusCode : Nat
  Body : Except String String

/-- What `result["id"]` holds after the Search handler decodes a body into a
`map[string]interface{}`: nothing (the map is nil or has no such key, or the
value is JSON null), a JSON number (already converted with `int(...)`), or a
value of another dynamic type. -/
inductive IdField where
  | missing
  | number (n : Int)
  | other
deriving DecidableEq, Repr

/-- The outside world as seen by the lookup and display code. -/
structure Remote where
  /-- The call `http.Get(url)`. -/
  get : String → Except String Response
  /-- The call `json.Unmarshal(body, &pokemon)`. -/
  unmarshal : String → Except String Pokemon
  /-- The call `json.NewDecoder(resp.Body).Decode(&result)` followed by
  `result["id"]`; the decoder error is discarded by the caller. -/
  decodeID : Except String String → IdField
  /-- The call `image.Decode(res.Body)`; `none` is a nil image. -/
  imageDecode : Except String String → Option String

/-- The globals and widgets the handlers share, with the list of URLs
requested so far (oldest first). -/
structure App where
  currentPokemon : Option Pokemon
  currentInfoIndex : Int
  pokemonName : String
  pokemonStats : String
  pokemonImage : Option String
  requests : List String
deriving DecidableEq, Repr

/-- How a handler ends: it returns, or a Go run-time panic unwinds it. -/
inductive Outcome where
  | returned (app : App)
  | panicked (app : App)
deriving DecidableEq, Repr

/-- The state a handler leaves behind. -/
def Outcome.app : Outcome → App
  | .returned a => a
  | .panicked a => a

/-- Run `f` after an outcome that returned; a panic is final. -/
def Outcome.andThen (o : Outcome) (f : App → Outcome) : Outcome :=
  match o with
  | .returned a => f a
  | .panicked a => .panicked a

/-! ## Remote data client -/

/-- The URL `fmt.Sprintf("https://pokeapi.co/api/v2/pokemon/%d", id)`. -/
def pokemonURL (id : Int) : String :=
  "https://pokeapi.co/api/v2/pokemon/" ++ toString id

/-- The URL `fmt.Sprintf("https://pokeapi.co/api/v2/pokemon/%s", text)`. -/
def pokemonNameURL (text : String) : String :=
  "https://pokeapi.co/api/v2/pokemon/" ++ text

/-- The function `getPokemonData`: the three early returns hand the error on,
and `resp.StatusCode` is never read. -/
def getPokemonData (env : Remote) (id : Int) : Except String Pokemon :=
  match env.get (pokemonURL id) with
  | .error err => .error err
  | .ok resp =>
    match resp.Body with
    | .error err => .error err
    | .ok body =>
      match env.unmarshal body with
      | .error err => .error err
      | .ok pokemon => .ok pokemon

/-! ## Display -/

/-- The text `fmt.Sprintf("#%d %s", pokemon.ID, pokemon.Name)`. -/
def headerText (pokemon : Pokemon) : String :=
  "#" ++ toString pokemon.ID ++ " " ++ pokemon.Name

/-- The text `fmt.Sprintf("Height: %d\nWeight: %d", height, weight)`. -/
def basicText (pokemon : Pokemon) : String :=
  "Height: " ++ toString pokemon.Height ++ "\nWeight: " ++ toString pokemon.Weight

/-- The function `updatePokemonDisplay`.  The request log receives the URL that
`getPokemonData` requests and, after a successful lookup, the sprite URL. -/
def updatePokemonDisplay (env : Remote) (app : App) (id : Int) : App :=
  let id := if id < 1 then MAX_POKEMON_ID else id
  let app := { app with requests := app.requests ++ [pokemonURL id] }
  match getPokemonData env id with
  | .error _ =>
    { app with pokemonName := "Error: Pokémon not found", currentPokemon := none }
  | .ok pokemon =>
    let app := { app with
      currentPokemon := some pokemon
      pokemonName := headerText pokemon
      pokemonStats := basicText pokemon
      requests := app.requests ++ [pokemon.FrontDefault] }
    match env.get pokemon.FrontDefault with
    | .error _ => app
    | .ok res =>
      match env.imageDecode res.Body with
      | none => app
      | some img => { app with pokemonImage := some img }

/-- The slice `infoTypes`. -/
def infoTypes : List String := ["Basic", "Stats", "Abilities", "Moves"]

/-- The `Stats` loop: one `info += fmt.Sprintf("%s: %d\n", ...)` per stat. -/
def statsLoop (info : String) : List StatEntry → String
  | [] => info
  | stat :: rest => statsLoop (info ++ (stat.Name ++ ": " ++ toString stat.BaseStat ++ "\n")) rest

/-- The `Abilities` loop: one `info += fmt.Sprintf("- %s\n", ...)` per ability. -/
def abilitiesLoop (info : String) : List String → String
  | [] => info
  | ability :: rest => abilitiesLoop (info ++ ("- " ++ ability ++ "\n")) rest

/-- The `Moves` loop, `i` being the range index: `break` once `i >= 5`. -/
def movesLoop (i : Nat) (info : String) : List String → String
  | [] => info
  | move :: rest =>
    if i ≥ 5 then info
    else movesLoop (i + 1) (info ++ ("- " ++ move ++ "\n")) rest

/-- The `switch infoTypes[currentInfoIndex]` of `updatePokemonInfo`; a string
outside the four cases leaves `info` empty. -/
def infoText (category : String) (pokemon : Pokemon) : String :=
  if category = "Basic" then basicText pokemon
  else if category = "Stats" then statsLoop "Stats:\n" pokemon.Stats
  else if category = "Abilities" then abilitiesLoop "Abilities:\n" pokemon.Abilities
  else if category = "Moves" then movesLoop 0 "Moves:\n" pokemon.Moves ++ "(showing first 5 moves)"
  else ""

/-- The function `updatePokemonInfo`.  Indexing `infoTypes` outside its bounds
is a run-time panic. -/
def updatePokemonInfo (app : App) : Outcome :=
  match app.currentPokemon with
  | none => .returned { app with pokemonStats := "No Pokémon selected" }
  | some pokemon =>
    if app.currentInfoIndex < 0 then .panicked app
    else
      match infoTypes.get? app.currentInfoIndex.toNat with
      | none => .panicked app
      | some category => .returned { app with pokemonStats := infoText category pokemon }

/-! ## Navigation handlers -/

/-- The handler of the `►` button. -/
def nextInfo (app : App) : Outcome :=
  updatePokemonInfo { app with
    currentInfoIndex := Int.tmod (app.currentInfoIndex + 1) infoTypes.length }

/-- The handler of the `◄` button. -/
def prevInfo (app : App) : Outcome :=
  updatePokemonInfo { app with
    currentInfoIndex := Int.tmod (app.currentInfoIndex - 1 + infoTypes.length) infoTypes.length }

/-- The handler of the `▲` button. -/
def prevID (env : Remote) (app : App) : App :=
  match app.currentPokemon with
  | some pokemon => updatePokemonDisplay env app (pokemon.ID - 1)
  | none => app

/-- The handler of the `▼` button. -/
def nextID (env : Remote) (app : App) : App :=
  match app.currentPokemon with
  | some pokemon => updatePokemonDisplay env app (pokemon.ID + 1)
  | none => app

/-- Run a handler `n` times in a row, stopping at the first panic. -/
def repeatHandler (f : App → Outcome) : Nat → App → Outcome
  | 0, app => .returned app
  | n + 1, app => (f app).andThen (repeatHandler f n)

/-! ## Search -/

/-- The value of a run of decimal digits, most significant first. -/
def digitsValue (ds : List Char) : Nat :=
  ds.foldl (fun acc c => 10 * acc + (c.toNat - 48)) 0

/-- The call `strconv.Atoi`: an optional single sign, then one or more decimal
digits and nothing else, the value within the 64-bit `int` range; every other
text is an error (`none`). -/
def atoi (s : String) : Option Int :=
  let cs := s.data
  let neg := cs.head? = some '-'
  let ds := if cs.head? = some '-' ∨ cs.head? = some '+' then cs.tail else cs
  if ds = [] then none
  else if ds.all Char.isDigit then
    let v : Int := if neg then -(digitsValue ds : Int) else (digitsValue ds : Int)
    if -(2 ^ 63 : Int) ≤ v ∧ v ≤ 2 ^ 63 - 1 then some v else none
  else none

/-- The handler of the Search button, `text` being `searchEntry.Text`.  The
type assertion `result["id"].(float64)` panics unless the value is a number. -/
def searchButton (env : Remote) (app : App) (text : String) : Outcome :=
  match atoi text with
  | some id => .returned (updatePokemonDisplay env app id)
  | none =>
    let app := { app with requests := app.requests ++ [pokemonNameURL text] }
    match env.get (pokemonNameURL text) with
    | .error _ => .returned { app with pokemonName := "Error: Pokémon not found" }
    | .ok resp =>
      match env.decodeID resp.Body with
      | .number id => .returned (updatePokemonDisplay env app id)
      | .missing => .panicked app
      | .other => .panicked app

/-! ## Cry playback -/

/-- One outside action of `playPokemonCry`, in the order performed. -/
inductive AudioStep where
  | fetch (url : String)
  | decode
  | init (sampleRate : Nat) (bufferSize : Nat)
  | play
deriving DecidableEq, Repr

/-- The outside world as seen by `playPokemonCry`. -/
structure Audio where
  /-- The call `http.Get(url)`, giving the response body. -/
  get : String → Except String String
  /-- The call `vorbis.Decode(resp.Body)`, giving `format.SampleRate`. -/
  decode : String → Except String Nat
  /-- The call `speaker.Init(sampleRate, bufferSize)`. -/
  init : Nat → Nat → Except String Unit
  /-- Whether the mutex of the `speaker` package is held when `speaker.Unlock()`
  is reached.  `main.go` never calls `speaker.Lock()`, and `speaker.Init` releases
  the mutex before it returns, so in this program the answer is `false` unless
  another goroutine of the audio library holds it at that instant. -/
  speakerHeld : Bool

/-- The global `isPlaying` with the outside actions performed so far. -/
structure Player where
  isPlaying : Bool
  steps : List AudioStep
deriving DecidableEq, Repr

/-- How a call of `playPokemonCry` ends: it returns an `error` value (`none` is
nil), or the Go run time aborts the whole process, in which case deferred
functions do not run and nothing returns. -/
inductive CryOutcome where
  | returned (err : Option String) (p : Player)
  | fatal (p : Player)
deriving DecidableEq, Repr

/-- The state a call leaves behind. -/
def CryOutcome.player : CryOutcome → Player
  | .returned _ p => p
  | .fatal p => p

/-- The part of `playPokemonCry` after the flag is set, up to its `return`
statements.  `SampleRate.N(time.Second/10)` is a tenth of the rate.  Releasing
a `sync.Mutex` that is not locked is a fatal run-time error.  Playing the
decoded stream and waiting on `done` is one step that completes. -/
def playBody (env : Audio) (p : Player) (url : String) : CryOutcome :=
  let p := { p with steps := p.steps ++ [.fetch url] }
  match env.get url with
  | .error err => .returned (some ("failed to get audio: " ++ err)) p
  | .ok body =>
    let p := { p with steps := p.steps ++ [.decode] }
    match env.decode body with
    | .error err => .returned (some ("failed to decode audio: " ++ err)) p
    | .ok sampleRate =>
      let p := { p with steps := p.steps ++ [.init sampleRate (sampleRate / 10)] }
      match env.init sampleRate (sampleRate / 10) with
      | .error err =>
        if env.speakerHeld then
          .returned (some ("failed to initialize speaker: " ++ err)) p
        else .fatal p
      | .ok _ => .returned none { p with steps := p.steps ++ [.play] }

/-- The function `playPokemonCry`: the guarded check-and-set of `isPlaying`,
then the body, then the deferred reset on every return of the body. -/
def playPokemonCry (env : Audio) (p : Player) (url : String) : CryOutcome :=
  if p.isPlaying then .returned none p
  else
    match playBody env { p with isPlaying := true } url with
    | .returned err q => .returned err { q with isPlaying := false }
    | .fatal q => .fatal q

/-! ## Rendering as the specification words it -/

/-- Lines joined by a newline between consecutive lines, none after the last. -/
def joinLines : List String → String
  | [] => ""
  | [line] => line
  | line :: rest => line ++ "\n" ++ joinLines rest

/-- The Moves text as the specification words it: the header line, one line
`- <moveName>` for each of the first five moves in their order, the trailer. -/
def movesLines (pokemon : Pokemon) : List String :=
  "Moves:" :: ((pokemon.Moves.take 5).map (fun move => "- " ++ move) ++ ["(showing first 5 moves)"])

/-! ## Sample data -/

/-- A record with eight moves. -/
def wartortle : Pokemon :=
  { ID := 8, Name := "wartortle", Height := 10, Weight := 225,
    FrontDefault := "https://img.example/8.png", Latest := "https://cry.example/8.ogg",
    Types := ["water"], Abilities := ["torrent", "rain-dish"],
    Stats := [⟨59, "hp"⟩, ⟨63, "attack"⟩],
    Moves := ["mega-punch", "ice-punch", "mega-kick", "headbutt", "tackle", "body-slam",
      "take-down", "double-edge"] }

/-- A record with three moves. -/
def caterpie : Pokemon :=
  { ID := 10, Name := "caterpie", Height := 3, Weight := 29,
    FrontDefault := "", Latest := "", Types := ["bug"], Abilities := ["shield-dust"],
    Stats := [⟨45, "hp"⟩], Moves := ["tackle", "string-shot", "snore"] }

/-- What `json.Unmarshal` leaves in a `Pokemon` when the body is a JSON object
with none of the known keys: every field at its zero value. -/
def zeroPokemon : Pokemon :=
  { ID := 0, Name := "", Height := 0, Weight := 0, FrontDefault := "", Latest := "",
    Types := [], Abilities := [], Stats := [], Moves := [] }

/-- The widgets as `main` creates them, before the first lookup. -/
def initialApp : App :=
  { currentPokemon := none, currentInfoIndex := 0, pokemonName := "Pokémon Name",
    pokemonStats := "Height: \nWeight: ", pokemonImage := none, requests := [] }

/-- A display showing `wartortle` with its sprite, cursor on `Moves`. -/
def shownApp : App :=
  { currentPokemon := some wartortle, currentInfoIndex := 3, pokemonName := "#8 wartortle",
    pokemonStats := "Height: 10\nWeight: 225", pokemonImage := some "sprite-8",
    requests := [] }

/-- A world in which every request fails in transport. -/
def offlineRemote : Remote :=
  { get := fun _ => .error "dial tcp: no route to host",
    unmarshal := fun _ => .error "unexpected end of JSON input",
    decodeID := fun _ => .missing,
    imageDecode := fun _ => none }

/-- A server that answers every lookup with the record of `wartortle`. -/
def wartortleRemote : Remote :=
  { get := fun _ => .ok { StatusCode := 200, Body := .ok "wartortle.json" },
    unmarshal := fun _ => .ok wartortle,
    decodeID := fun _ => .number 8,
    imageDecode := fun _ => some "sprite-8" }

/-- A server that answers every lookup with status 404 and a JSON error
object; decoding that object into `Pokemon` succeeds with all fields zero, and
the object has no `id` key. -/
def notFoundRemote : Remote :=
  { get := fun _ => .ok { StatusCode := 404, Body := .ok "\x7b\"detail\":\"Not found.\"\x7d" },
    unmarshal := fun _ => .ok zeroPokemon,
    decodeID := fun _ => .missing,
    imageDecode := fun _ => none }

/-- An audio world where fetch and decode succeed, no output device can be
opened, and nobody holds the speaker mutex. -/
def noDeviceAudio : Audio :=
  { get := fun _ => .ok "OggS", decode := fun _ => .ok 44100,
    init := fun _ _ => .error "oto: no audio device", speakerHeld := false }

/-- An audio world where every step succeeds. -/
def workingAudio : Audio :=
  { get := fun _ => .ok "OggS", decode := fun _ => .ok 44100,
    init := fun _ _ => .ok (), speakerHeld := false }

/-! ## Lookup and display -/

/-- After a successful lookup every field but the sprite is determined by the
fetched record; the sprite request follows the lookup request. -/
theorem updatePokemonDisplay_ok (env : Remote) (app : App) (id : Int) (pokemon : Pokemon)
    (hok : getPokemonData env (if id < 1 then MAX_POKEMON_ID else id) = .ok pokemon) :
    (updatePokemonDisplay env app id).currentPokemon = some pokemon ∧
    (updatePokemonDisplay env app id).pokemonName = headerText pokemon ∧
    (updatePokemonDisplay env app id).pokemonStats = basicText pokemon ∧
    (updatePokemonDisplay env app id).currentInfoIndex = app.currentInfoIndex ∧
    (updatePokemonDisplay env app id).requests
      = app.requests ++ [pokemonURL (if id < 1 then MAX_POKEMON_ID else id), pokemon.FrontDefault] := by
  simp only [updatePokemonDisplay, hok]
  split
  · simp
  · split <;> simp

/-- C1: an id below 1 is looked up as 1025, so the whole resulting state (requests
issued, current record, header, info text, sprite) is the one of id 1025; an id
of 1 or more is requested as it is, and the current record is what its own
lookup gives. -/
theorem updatePokemonDisplay_wraps_below_one (env : Remote) (app : App) (id : Int) :
    (id < 1 → updatePokemonDisplay env app id = updatePokemonDisplay env app 1025) ∧
    (1 ≤ id → ∃ sprite,
      (updatePokemonDisplay env app id).requests = app.requests ++ pokemonURL id :: sprite ∧
      (updatePokemonDisplay env app id).currentPokemon = (getPokemonData env id).toOption) := by
  constructor
  · intro h
    simp [updatePokemonDisplay, h, MAX_POKEMON_ID]
  · intro h
    have hid : ¬ id < 1 := by omega
    cases hget : getPokemonData env id with
    | error e =>
      refine ⟨[], ?_⟩
      simp [updatePokemonDisplay, hid, hget, Except.toOption]
    | ok pokemon =>
      have hok := updatePokemonDisplay_ok env app id pokemon (by simpa [hid] using hget)
      refine ⟨[pokemon.FrontDefault], ?_⟩
      simp [hok.1, hok.2.2.2.2, hid, Except.toOption]

/-- Witness of C1 at the ids -5 and 7. -/
theorem updatePokemonDisplay_wraps_below_one_witness :
    updatePokemonDisplay wartortleRemote initialApp (-5)
      = updatePokemonDisplay wartortleRemote initialApp 1025 ∧
    ∃ sprite,
      (updatePokemonDisplay wartortleRemote initialApp 7).requests
        = initialApp.requests ++ pokemonURL 7 :: sprite ∧
      (updatePokemonDisplay wartortleRemote initialApp 7).currentPokemon
        = (getPokemonData wartortleRemote 7).toOption :=
  ⟨(updatePokemonDisplay_wraps_below_one wartortleRemote initialApp (-5)).1 (by decide),
   (updatePokemonDisplay_wraps_below_one wartortleRemote initialApp 7).2 (by decide)⟩

/-- C4: when the lookup fails, the record is cleared, the header is the error
text, sprite and info text are untouched, and the only request issued is the
lookup itself. -/
theorem updatePokemonDisplay_lookup_failure (env : Remote) (app : App) (id : Int) (err : String)
    (hfail : getPokemonData env (if id < 1 then MAX_POKEMON_ID else id) = .error err) :
    (updatePokemonDisplay env app id).currentPokemon = none ∧
    (updatePokemonDisplay env app id).pokemonName = "Error: Pokémon not found" ∧
    (updatePokemonDisplay env app id).pokemonImage = app.pokemonImage ∧
    (updatePokemonDisplay env app id).pokemonStats = app.pokemonStats ∧
    (updatePokemonDisplay env app id).currentInfoIndex = app.currentInfoIndex ∧
    (updatePokemonDisplay env app id).requests
      = app.requests ++ [pokemonURL (if id < 1 then MAX_POKEMON_ID else id)] := by
  simp only [updatePokemonDisplay, hfail]
  simp

/-- Witness of C4: a display showing a record and its sprite, then a lookup
while offline. -/
theorem updatePokemonDisplay_lookup_failure_witness :
    (updatePokemonDisplay offlineRemote shownApp 9).currentPokemon = none ∧
    (updatePokemonDisplay offlineRemote shownApp 9).pokemonName = "Error: Pokémon not found" ∧
    (updatePokemonDisplay offlineRemote shownApp 9).pokemonImage = shownApp.pokemonImage ∧
    (updatePokemonDisplay offlineRemote shownApp 9).pokemonStats = shownApp.pokemonStats ∧
    (updatePokemonDisplay offlineRemote shownApp 9).currentInfoIndex = shownApp.currentInfoIndex ∧
    (updatePokemonDisplay offlineRemote shownApp 9).requests
      = shownApp.requests ++ [pokemonURL (if (9 : Int) < 1 then MAX_POKEMON_ID else 9)] :=
  updatePokemonDisplay_lookup_failure offlineRemote shownApp 9 "dial tcp: no route to host" rfl

/-! ## Info cursor -/

/-- With the cursor inside the list, `updatePokemonInfo` returns and touches
only the info text. -/
theorem updatePokemonInfo_returns (app : App)
    (h0 : 0 ≤ app.currentInfoIndex) (h3 : app.currentInfoIndex ≤ 3) :
    ∃ text, updatePokemonInfo app = .returned { app with pokemonStats := text } := by
  unfold updatePokemonInfo
  cases app.currentPokemon with
  | none => exact ⟨_, rfl⟩
  | some pokemon =>
    have hneg : ¬ app.currentInfoIndex < 0 := by omega
    have hlt : app.currentInfoIndex.toNat < infoTypes.length := by
      simp only [infoTypes, List.length_cons, List.length_nil]
      omega
    simp only [hneg, if_false]
    cases hget : infoTypes.get? app.currentInfoIndex.toNat with
    | none =>
      rw [List.get?_eq_none] at hget
      omega
    | some category => exact ⟨_, rfl⟩

/-- The cursor arithmetic of the `►` handler on a cursor inside the list. -/
theorem next_index (i : Int) (h0 : 0 ≤ i) (h3 : i ≤ 3) :
    Int.tmod (i + 1) infoTypes.length = if i = 3 then 0 else i + 1 := by
  have hlen : ((infoTypes.length : Nat) : Int) = 4 := rfl
  rw [hlen]
  interval_cases i <;> rfl

/-- The cursor arithmetic of the `◄` handler on a cursor inside the list. -/
theorem prev_index (i : Int) (h0 : 0 ≤ i) (h3 : i ≤ 3) :
    Int.tmod (i - 1 + infoTypes.length) infoTypes.length = if i = 0 then 3 else i - 1 := by
  have hlen : ((infoTypes.length : Nat) : Int) = 4 := rfl
  rw [hlen]
  interval_cases i <;> rfl

/-- One `►` press on a cursor inside the list returns, with the cursor advanced
and wrapped, the record kept. -/
theorem nextInfo_step (app : App) (h0 : 0 ≤ app.currentInfoIndex) (h3 : app.currentInfoIndex ≤ 3) :
    ∃ a, nextInfo app = .returned a ∧
      a.currentInfoIndex = (if app.currentInfoIndex = 3 then 0 else app.currentInfoIndex + 1) ∧
      a.currentPokemon = app.currentPokemon := by
  have hidx := next_index app.currentInfoIndex h0 h3
  obtain ⟨text, ht⟩ := updatePokemonInfo_returns
    { app with currentInfoIndex := Int.tmod (app.currentInfoIndex + 1) infoTypes.length }
    (by simp only [hidx]; split <;> omega) (by simp only [hidx]; split <;> omega)
  exact ⟨_, ht, hidx, rfl⟩

/-- One `◄` press on a cursor inside the list returns, with the cursor moved
back and wrapped, the record kept. -/
theorem prevInfo_step (app : App) (h0 : 0 ≤ app.currentInfoIndex) (h3 : app.currentInfoIndex ≤ 3) :
    ∃ a, prevInfo app = .returned a ∧
      a.currentInfoIndex = (if app.currentInfoIndex = 0 then 3 else app.currentInfoIndex - 1) ∧
      a.currentPokemon = app.currentPokemon := by
  have hidx := prev_index app.currentInfoIndex h0 h3
  obtain ⟨text, ht⟩ := updatePokemonInfo_returns
    { app with currentInfoIndex :=
        Int.tmod (app.currentInfoIndex - 1 + infoTypes.length) infoTypes.length }
    (by simp only [hidx]; split <;> omega) (by simp only [hidx]; split <;> omega)
  exact ⟨_, ht, hidx, rfl⟩

/-- C3: from a cursor in 0..3, four `►` presses return and bring the cursor back,
four `◄` presses likewise; a single press returns with the cursor again in 0..3,
`►` taking 3 to 0 and `◄` taking 0 to 3. -/
theorem info_cursor_cycle (app : App)
    (h0 : 0 ≤ app.currentInfoIndex) (h3 : app.currentInfoIndex ≤ 3) :
    (∃ a, repeatHandler nextInfo 4 app = .returned a ∧
      a.currentInfoIndex = app.currentInfoIndex) ∧
    (∃ a, repeatHandler prevInfo 4 app = .returned a ∧
      a.currentInfoIndex = app.currentInfoIndex) ∧
    (∃ a, nextInfo app = .returned a ∧ 0 ≤ a.currentInfoIndex ∧ a.currentInfoIndex ≤ 3 ∧
      a.currentInfoIndex = (if app.currentInfoIndex = 3 then 0 else app.currentInfoIndex + 1)) ∧
    (∃ a, prevInfo app = .returned a ∧ 0 ≤ a.currentInfoIndex ∧ a.currentInfoIndex ≤ 3 ∧
      a.currentInfoIndex = (if app.currentInfoIndex = 0 then 3 else app.currentInfoIndex - 1)) := by
  refine ⟨?_, ?_, ?_, ?_⟩
  · obtain ⟨a1, e1, i1, -⟩ := nextInfo_step app h0 h3
    obtain ⟨a2, e2, i2, -⟩ := nextInfo_step a1 (by rw [i1]; split <;> omega) (by rw [i1]; split <;> omega)
    obtain ⟨a3, e3, i3, -⟩ := nextInfo_step a2 (by rw [i2]; split <;> omega) (by rw [i2]; split <;> omega)
    obtain ⟨a4, e4, i4, -⟩ := nextInfo_step a3 (by rw [i3]; split <;> omega) (by rw [i3]; split <;> omega)
    refine ⟨a4, ?_, ?_⟩
    · simp [repeatHandler, Outcome.andThen, e1, e2, e3, e4]
    · rw [i4, i3, i2, i1]
      split_ifs <;> omega
  · obtain ⟨a1, e1, i1, -⟩ := prevInfo_step app h0 h3
    obtain ⟨a2, e2, i2, -⟩ := prevInfo_step a1 (by rw [i1]; split <;> omega) (by rw [i1]; split <;> omega)
    obtain ⟨a3, e3, i3, -⟩ := prevInfo_step a2 (by rw [i2]; split <;> omega) (by rw [i2]; split <;> omega)
    obtain ⟨a4, e4, i4, -⟩ := prevInfo_step a3 (by rw [i3]; split <;> omega) (by rw [i3]; split <;> omega)
    refine ⟨a4, ?_, ?_⟩
    · simp [repeatHandler, Outcome.andThen, e1, e2, e3, e4]
    · rw [i4, i3, i2, i1]
      split_ifs <;> omega
  · obtain ⟨a, e, i, -⟩ := nextInfo_step app h0 h3
    exact ⟨a, e, by rw [i]; split <;> omega, by rw [i]; split <;> omega, i⟩
  · obtain ⟨a, e, i, -⟩ := prevInfo_step app h0 h3
    exact ⟨a, e, by rw [i]; split <;> omega, by rw [i]; split <;> omega, i⟩

/-- Witness of C3 at the cursor on `Moves` (index 3), where `►` wraps. -/
theorem info_cursor_cycle_witness :
    (∃ a, repeatHandler nextInfo 4 shownApp = .returned a ∧
      a.currentInfoIndex = shownApp.currentInfoIndex) ∧
    (∃ a, repeatHandler prevInfo 4 shownApp = .returned a ∧
      a.currentInfoIndex = shownApp.currentInfoIndex) ∧
    (∃ a, nextInfo shownApp = .returned a ∧ 0 ≤ a.currentInfoIndex ∧ a.currentInfoIndex ≤ 3 ∧
      a.currentInfoIndex
        = (if shownApp.currentInfoIndex = 3 then 0 else shownApp.currentInfoIndex + 1)) ∧
    (∃ a, prevInfo shownApp = .returned a ∧ 0 ≤ a.currentInfoIndex ∧ a.currentInfoIndex ≤ 3 ∧
      a.currentInfoIndex
        = (if shownApp.currentInfoIndex = 0 then 3 else shownApp.currentInfoIndex - 1)) :=
  info_cursor_cycle shownApp (by decide) (by decide)

/-! ## Info text -/

/-- Joining a line with at least one further line puts a newline between. -/
theorem joinLines_cons (line : String) (rest : List String) (h : rest ≠ []) :
    joinLines (line :: rest) = line ++ "\n" ++ joinLines rest := by
  cases rest with
  | nil => exact absurd rfl h
  | cons r rs => rfl

/-- The `Moves` loop followed by a last line is the join of the move lines it
still has room for and that last line. -/
theorem movesLoop_append (moves : List String) (i : Nat) (info last : String) :
    movesLoop i info moves ++ last
      = info ++ joinLines ((moves.take (5 - i)).map (fun move => "- " ++ move) ++ [last]) := by
  induction moves generalizing i info with
  | nil => simp [movesLoop, joinLines]
  | cons move rest ih =>
    unfold movesLoop
    by_cases h : i ≥ 5
    · have h5 : 5 - i = 0 := by omega
      simp [h, h5, joinLines]
    · obtain ⟨k, hk⟩ : ∃ k, 5 - i = k + 1 := ⟨4 - i, by omega⟩
      have hk2 : 5 - (i + 1) = k := by omega
      rw [if_neg h, ih, hk, hk2, List.take_succ_cons, List.map_cons, List.cons_append,
        joinLines_cons _ _ (by simp)]
      simp only [String.append_assoc]

/-- The `Moves` text is the join of the lines the specification lists. -/
theorem infoText_moves (pokemon : Pokemon) :
    infoText "Moves" pokemon = joinLines (movesLines pokemon) := by
  have hcat : infoText "Moves" pokemon
      = movesLoop 0 "Moves:\n" pokemon.Moves ++ "(showing first 5 moves)" := by
    simp [infoText]
  rw [hcat, movesLoop_append, movesLines, joinLines_cons _ _ (by simp)]
  rfl

/-- C2: with a record current and the cursor on `Moves`, `updatePokemonInfo`
returns and the info text is the header line `Moves:`, then one line `- <name>`
for each of the first min(n, 5) moves in order, then the trailer line, joined by
newlines; that is min(n, 5) move lines, min(n, 5) + 2 lines in all. -/
theorem updatePokemonInfo_moves (app : App) (pokemon : Pokemon)
    (hcur : app.currentPokemon = some pokemon) (hidx : app.currentInfoIndex = 3) :
    updatePokemonInfo app
      = .returned { app with pokemonStats := joinLines (movesLines pokemon) } ∧
    movesLines pokemon
      = ["Moves:"]
        ++ ((pokemon.Moves.take (min pokemon.Moves.length 5)).map (fun move => "- " ++ move))
        ++ ["(showing first 5 moves)"] ∧
    ((pokemon.Moves.take (min pokemon.Moves.length 5)).map (fun move => "- " ++ move)).length
      = min pokemon.Moves.length 5 ∧
    (movesLines pokemon).length = min pokemon.Moves.length 5 + 2 := by
  have htake : pokemon.Moves.take (min pokemon.Moves.length 5) = pokemon.Moves.take 5 := by
    rcases Nat.le_total pokemon.Moves.length 5 with h | h
    · rw [Nat.min_eq_left h, List.take_of_length_le h, List.take_of_length_le (le_refl _)]
    · rw [Nat.min_eq_right h]
  refine ⟨?_, ?_, ?_, ?_⟩
  · have hget : infoTypes.get? (3 : Int).toNat = some "Moves" := rfl
    simp only [updatePokemonInfo, hcur, hidx, hget]
    rw [if_neg (by decide), infoText_moves]
  · rw [htake]
    rfl
  · simp
  · simp [movesLines, Nat.min_comm]

/-- Witness of C2: a record with eight moves gives five move lines and the
trailer, a record with three moves gives three move lines and the trailer. -/
theorem updatePokemonInfo_moves_witness :
    (updatePokemonInfo shownApp
      = .returned { shownApp with pokemonStats := joinLines (movesLines wartortle) } ∧
    movesLines wartortle
      = ["Moves:"]
        ++ ((wartortle.Moves.take (min wartortle.Moves.length 5)).map (fun move => "- " ++ move))
        ++ ["(showing first 5 moves)"] ∧
    ((wartortle.Moves.take (min wartortle.Moves.length 5)).map (fun move => "- " ++ move)).length
      = min wartortle.Moves.length 5 ∧
    (movesLines wartortle).length = min wartortle.Moves.length 5 + 2) ∧
    (updatePokemonInfo { shownApp with currentPokemon := some caterpie }
      = .returned { shownApp with
          currentPokemon := some caterpie, pokemonStats := joinLines (movesLines caterpie) } ∧
    movesLines caterpie
      = ["Moves:"]
        ++ ((caterpie.Moves.take (min caterpie.Moves.length 5)).map (fun move => "- " ++ move))
        ++ ["(showing first 5 moves)"] ∧
    ((caterpie.Moves.take (min caterpie.Moves.length 5)).map (fun move => "- " ++ move)).length
      = min caterpie.Moves.length 5 ∧
    (movesLines caterpie).length = min caterpie.Moves.length 5 + 2) :=
  ⟨updatePokemonInfo_moves shownApp wartortle rfl rfl,
   updatePokemonInfo_moves { shownApp with currentPokemon := some caterpie } caterpie rfl rfl⟩

/-- The two sample renderings written out. -/
theorem movesLines_samples :
    joinLines (movesLines wartortle)
      = "Moves:\n- mega-punch\n- ice-punch\n- mega-kick\n- headbutt\n- tackle\n(showing first 5 moves)" ∧
    joinLines (movesLines caterpie)
      = "Moves:\n- tackle\n- string-shot\n- snore\n(showing first 5 moves)" := by
  constructor <;> decide

/-- A text keeps its first character when more is appended. -/
theorem head_append (a b : String) (c : Char) (h : a.data.head? = some c) :
    (a ++ b).data.head? = some c := by
  rw [String.data_append]
  cases hd : a.data with
  | nil => rw [hd] at h; cases h
  | cons x xs => rw [hd] at h; simpa using h

/-- The `Stats` loop only appends. -/
theorem statsLoop_head (stats : List StatEntry) (info : String) (c : Char)
    (h : info.data.head? = some c) : (statsLoop info stats).data.head? = some c := by
  induction stats generalizing info with
  | nil => exact h
  | cons stat rest ih => exact ih _ (head_append _ _ c h)

/-- The `Abilities` loop only appends. -/
theorem abilitiesLoop_head (abilities : List String) (info : String) (c : Char)
    (h : info.data.head? = some c) : (abilitiesLoop info abilities).data.head? = some c := by
  induction abilities generalizing info with
  | nil => exact h
  | cons ability rest ih => exact ih _ (head_append _ _ c h)

/-- The `Moves` loop only appends. -/
theorem movesLoop_head (moves : List String) (i : Nat) (info : String) (c : Char)
    (h : info.data.head? = some c) : (movesLoop i info moves).data.head? = some c := by
  induction moves generalizing i info with
  | nil => exact h
  | cons move rest ih =>
    unfold movesLoop
    split
    · exact h
    · exact ih _ _ (head_append _ _ c h)

/-- The Basic text starts with `H`. -/
theorem basicText_head (pokemon : Pokemon) : (basicText pokemon).data.head? = some 'H' :=
  head_append _ _ _ (head_append _ _ _ (head_append _ _ _ rfl))

/-- The texts of the three other categories start with `S`, `A` and `M`, so
none of them is the Basic text. -/
theorem infoText_ne_basic (category : String) (pokemon : Pokemon)
    (h : category = "Stats" ∨ category = "Abilities" ∨ category = "Moves") :
    infoText category pokemon ≠ basicText pokemon := by
  intro heq
  have hb := basicText_head pokemon
  rw [← heq] at hb
  rcases h with rfl | rfl | rfl
  · have hs : infoText "Stats" pokemon = statsLoop "Stats:\n" pokemon.Stats := by
      simp [infoText]
    rw [hs, statsLoop_head pokemon.Stats "Stats:\n" 'S' rfl] at hb
    exact absurd hb (by decide)
  · have hs : infoText "Abilities" pokemon = abilitiesLoop "Abilities:\n" pokemon.Abilities := by
      simp [infoText]
    rw [hs, abilitiesLoop_head pokemon.Abilities "Abilities:\n" 'A' rfl] at hb
    exact absurd hb (by decide)
  · have hs : infoText "Moves" pokemon
        = movesLoop 0 "Moves:\n" pokemon.Moves ++ "(showing first 5 moves)" := by
      simp [infoText]
    rw [hs, head_append _ _ 'M' (movesLoop_head pokemon.Moves 0 "Moves:\n" 'M' rfl)] at hb
    exact absurd hb (by decide)

/-- C10: a successful lookup leaves the cursor where it was and shows the Basic
text of the fetched record; with the cursor on Stats, Abilities or Moves (1, 2,
3) that text is not the one `updatePokemonInfo` renders for the active category
from the resulting state. -/
theorem updatePokemonDisplay_keeps_cursor_shows_basic (env : Remote) (app : App) (id : Int)
    (pokemon : Pokemon)
    (hok : getPokemonData env (if id < 1 then MAX_POKEMON_ID else id) = .ok pokemon) :
    (updatePokemonDisplay env app id).currentInfoIndex = app.currentInfoIndex ∧
    (updatePokemonDisplay env app id).pokemonStats
      = "Height: " ++ toString pokemon.Height ++ "\nWeight: " ++ toString pokemon.Weight ∧
    (1 ≤ app.currentInfoIndex → app.currentInfoIndex ≤ 3 →
      ∃ a, updatePokemonInfo (updatePokemonDisplay env app id) = .returned a ∧
        a.pokemonStats ≠ (updatePokemonDisplay env app id).pokemonStats) := by
  obtain ⟨hcur, -, hstats, hidx, -⟩ := updatePokemonDisplay_ok env app id pokemon hok
  refine ⟨hidx, hstats, ?_⟩
  intro h1 h3
  have hcases : app.currentInfoIndex = 1 ∨ app.currentInfoIndex = 2 ∨ app.currentInfoIndex = 3 := by
    omega
  rw [hstats]
  simp only [updatePokemonInfo, hcur, hidx]
  rcases hcases with h | h | h
  · rw [h, if_neg (by decide)]
    exact ⟨_, rfl, infoText_ne_basic "Stats" pokemon (Or.inl rfl)⟩
  · rw [h, if_neg (by decide)]
    exact ⟨_, rfl, infoText_ne_basic "Abilities" pokemon (Or.inr (Or.inl rfl))⟩
  · rw [h, if_neg (by decide)]
    exact ⟨_, rfl, infoText_ne_basic "Moves" pokemon (Or.inr (Or.inr rfl))⟩

/-- Witness of C10: the cursor is on `Moves` when a lookup of id 8 succeeds. -/
theorem updatePokemonDisplay_keeps_cursor_shows_basic_witness :
    (updatePokemonDisplay wartortleRemote shownApp 8).currentInfoIndex
      = shownApp.currentInfoIndex ∧
    (updatePokemonDisplay wartortleRemote shownApp 8).pokemonStats
      = "Height: " ++ toString wartortle.Height ++ "\nWeight: " ++ toString wartortle.Weight ∧
    ∃ a, updatePokemonInfo (updatePokemonDisplay wartortleRemote shownApp 8) = .returned a ∧
      a.pokemonStats ≠ (updatePokemonDisplay wartortleRemote shownApp 8).pokemonStats :=
  ⟨(updatePokemonDisplay_keeps_cursor_shows_basic wartortleRemote shownApp 8 wartortle rfl).1,
   (updatePokemonDisplay_keeps_cursor_shows_basic wartortleRemote shownApp 8 wartortle rfl).2.1,
   (updatePokemonDisplay_keeps_cursor_shows_basic wartortleRemote shownApp 8 wartortle rfl).2.2
     (by decide) (by decide)⟩

/-! ## Lookup results -/

/-- C7, as amended: `getPokemonData` returns a record exactly when the request
gets a response, the body can be read and the body decodes, and the record is
the decoded one; it returns an error exactly when one of these three steps
fails.  The status code of the response plays no part. -/
theorem getPokemonData_result (env : Remote) (id : Int) :
    (∀ pokemon, getPokemonData env id = .ok pokemon ↔
      ∃ resp body, env.get (pokemonURL id) = .ok resp ∧ resp.Body = .ok body ∧
        env.unmarshal body = .ok pokemon) ∧
    ((∃ err, getPokemonData env id = .error err) ↔
      (∃ err, env.get (pokemonURL id) = .error err) ∨
      (∃ resp err, env.get (pokemonURL id) = .ok resp ∧ resp.Body = .error err) ∨
      (∃ resp body err, env.get (pokemonURL id) = .ok resp ∧ resp.Body = .ok body ∧
        env.unmarshal body = .error err)) := by
  unfold getPokemonData
  cases hget : env.get (pokemonURL id) with
  | error e => simp
  | ok resp =>
    cases hbody : resp.Body with
    | error e => simp [hbody]
    | ok body =>
      cases hdec : env.unmarshal body with
      | error e => simp [hbody, hdec]
      | ok pokemon => simp [hbody, hdec]

/-- C7, counterexample: a response with status 404 whose body is a JSON object
decodes, and `getPokemonData` returns the decoded record and no error. -/
theorem getPokemonData_ignores_status :
    (∃ resp, notFoundRemote.get (pokemonURL 5) = .ok resp ∧ resp.StatusCode = 404) ∧
    getPokemonData notFoundRemote 5 = .ok zeroPokemon :=
  ⟨⟨_, rfl, rfl⟩, rfl⟩

/-- C9, as amended: after a successful lookup of an id in 1..1025 the current
record is the fetched record and the header is `#<id> <name>` with the id and
name of the fetched record; it shows the requested id when the fetched record
carries it. -/
theorem updatePokemonDisplay_header (env : Remote) (app : App) (id : Int) (pokemon : Pokemon)
    (h1 : 1 ≤ id) (hmax : id ≤ 1025) (hok : getPokemonData env id = .ok pokemon) :
    (updatePokemonDisplay env app id).currentPokemon = some pokemon ∧
    (updatePokemonDisplay env app id).pokemonName
      = "#" ++ toString pokemon.ID ++ " " ++ pokemon.Name ∧
    (pokemon.ID = id →
      (updatePokemonDisplay env app id).pokemonName = "#" ++ toString id ++ " " ++ pokemon.Name) := by
  have hid : ¬ id < 1 := by omega
  obtain ⟨hcur, hname, -⟩ :=
    updatePokemonDisplay_ok env app id pokemon (by simpa [hid] using hok)
  refine ⟨hcur, hname, ?_⟩
  intro heq
  rw [hname, headerText, heq]

/-- Witness of C9 as amended, at id 8. -/
theorem updatePokemonDisplay_header_witness :
    (updatePokemonDisplay wartortleRemote initialApp 8).currentPokemon = some wartortle ∧
    (updatePokemonDisplay wartortleRemote initialApp 8).pokemonName
      = "#" ++ toString wartortle.ID ++ " " ++ wartortle.Name ∧
    (wartortle.ID = 8 →
      (updatePokemonDisplay wartortleRemote initialApp 8).pokemonName
        = "#" ++ toString (8 : Int) ++ " " ++ wartortle.Name) :=
  updatePokemonDisplay_header wartortleRemote initialApp 8 wartortle (by decide) (by decide) rfl

/-- C9, counterexample: the lookup of id 7 succeeds with a record whose id is 8;
the header shows 8, not the requested 7. -/
theorem updatePokemonDisplay_header_foreign_id :
    (1 : Int) ≤ 7 ∧ (7 : Int) ≤ 1025 ∧
    getPokemonData wartortleRemote 7 = .ok wartortle ∧
    (updatePokemonDisplay wartortleRemote initialApp 7).currentPokemon = some wartortle ∧
    (updatePokemonDisplay wartortleRemote initialApp 7).pokemonName = "#8 wartortle" ∧
    wartortle.ID ≠ 7 := by
  refine ⟨by decide, by decide, rfl, by decide, by decide, by decide⟩

/-! ## Search -/

/-- A text that parses as an integer is looked up by that integer. -/
theorem searchButton_integer (env : Remote) (app : App) (text : String) (id : Int)
    (h : atoi text = some id) :
    searchButton env app text = .returned (updatePokemonDisplay env app id) := by
  simp [searchButton, h]

/-- C8, the code at the failing inputs: `missingno` is not an integer.  Against
a server answering 404 with a JSON error object the handler panics on the type
assertion.  Against a transport failure it returns with the error header, and
the record shown before is still current. -/
theorem searchButton_name_lookup_failure :
    atoi "missingno" = none ∧
    searchButton notFoundRemote shownApp "missingno"
      = .panicked { shownApp with requests := [pokemonNameURL "missingno"] } ∧
    searchButton offlineRemote shownApp "missingno"
      = .returned { shownApp with
          pokemonName := "Error: Pokémon not found", requests := [pokemonNameURL "missingno"] } ∧
    (searchButton offlineRemote shownApp "missingno").app.currentPokemon = some wartortle := by
  refine ⟨by decide, by decide, by decide, by decide⟩

/-! ## Cry playback -/

/-- C6: a call made while the flag is set returns nil at once, performs no
outside action and leaves the flag set. -/
theorem playPokemonCry_busy (env : Audio) (p : Player) (url : String)
    (h : p.isPlaying = true) :
    playPokemonCry env p url = .returned none p ∧
    (playPokemonCry env p url).player.steps = p.steps ∧
    (playPokemonCry env p url).player.isPlaying = true := by
  simp [playPokemonCry, h, CryOutcome.player]

/-- Witness of C6: a call while a cry is sounding. -/
theorem playPokemonCry_busy_witness :
    playPokemonCry workingAudio ⟨true, [.fetch "https://cry.example/8.ogg"]⟩
        "https://cry.example/10.ogg"
      = .returned none ⟨true, [.fetch "https://cry.example/8.ogg"]⟩ ∧
    (playPokemonCry workingAudio ⟨true, [.fetch "https://cry.example/8.ogg"]⟩
        "https://cry.example/10.ogg").player.steps = [.fetch "https://cry.example/8.ogg"] ∧
    (playPokemonCry workingAudio ⟨true, [.fetch "https://cry.example/8.ogg"]⟩
        "https://cry.example/10.ogg").player.isPlaying = true :=
  playPokemonCry_busy workingAudio ⟨true, [.fetch "https://cry.example/8.ogg"]⟩
    "https://cry.example/10.ogg" rfl

/-- Whenever a call returns, the flag is clear afterwards. -/
theorem playPokemonCry_returned_idle (env : Audio) (p : Player) (url : String)
    (err : Option String) (q : Player) (hidle : p.isPlaying = false)
    (hret : playPokemonCry env p url = .returned err q) : q.isPlaying = false := by
  simp only [playPokemonCry, hidle] at hret
  cases hbody : playBody env { p with isPlaying := true } url with
  | returned e r =>
    simp [hbody] at hret
    rw [← hret.2]
  | fatal r => simp [hbody] at hret

/-- From idle, a failed fetch returns the error with the flag clear. -/
theorem playPokemonCry_fetch_failure (env : Audio) (p : Player) (url e : String)
    (hidle : p.isPlaying = false) (hget : env.get url = .error e) :
    playPokemonCry env p url
      = .returned (some ("failed to get audio: " ++ e))
          { isPlaying := false, steps := p.steps ++ [.fetch url] } := by
  simp [playPokemonCry, playBody, hidle, hget]

/-- From idle, a failed decode returns the error with the flag clear. -/
theorem playPokemonCry_decode_failure (env : Audio) (p : Player) (url body e : String)
    (hidle : p.isPlaying = false) (hget : env.get url = .ok body)
    (hdec : env.decode body = .error e) :
    playPokemonCry env p url
      = .returned (some ("failed to decode audio: " ++ e))
          { isPlaying := false, steps := p.steps ++ [.fetch url, .decode] } := by
  simp [playPokemonCry, playBody, hidle, hget, hdec]

/-- From idle, a completed playback returns nil with the flag clear. -/
theorem playPokemonCry_completes (env : Audio) (p : Player) (url body : String) (rate : Nat)
    (hidle : p.isPlaying = false) (hget : env.get url = .ok body)
    (hdec : env.decode body = .ok rate) (hinit : env.init rate (rate / 10) = .ok ()) :
    playPokemonCry env p url
      = .returned none
          { isPlaying := false,
            steps := p.steps ++ [.fetch url, .decode, .init rate (rate / 10), .play] } := by
  simp [playPokemonCry, playBody, hidle, hget, hdec, hinit]

/-- From idle, when the output cannot be opened and the speaker mutex is not
held, the call does not return: the process aborts with the flag still set. -/
theorem playPokemonCry_init_failure (env : Audio) (p : Player) (url body e : String) (rate : Nat)
    (hidle : p.isPlaying = false) (hget : env.get url = .ok body)
    (hdec : env.decode body = .ok rate) (hinit : env.init rate (rate / 10) = .error e)
    (hheld : env.speakerHeld = false) :
    playPokemonCry env p url
      = .fatal { isPlaying := true, steps := p.steps ++ [.fetch url, .decode, .init rate (rate / 10)] } := by
  simp [playPokemonCry, playBody, hidle, hget, hdec, hinit, hheld]

/-- C5, the code at the failing input: from idle, with audio that fetches and
decodes and an output that cannot be opened, the call ends in a fatal abort
after the `init` step with `isPlaying` still true. -/
theorem playPokemonCry_no_device :
    playPokemonCry noDeviceAudio ⟨false, []⟩ "https://cry.example/8.ogg"
      = .fatal ⟨true, [.fetch "https://cry.example/8.ogg", .decode, .init 44100 4410]⟩ := by
  decide

end Pokedex
